import Mathlib

/-!
Shallow embedding of `src/hawkbit-client.c` from rauc-hawkbit-updater.

The C file implements a hawkBit DDI update agent: a 1-Hz poll loop
(`hawkbit_pull_cb`), a deployment-intake parser (`process_deployment`),
an asynchronous download-and-verify worker (`download_thread`), the
feedback/status JSON builder (`json_build_status`), session teardown
(`process_deployment_cleanup`) and the installer completion callback
(`install_complete_cb`).

Modelling conventions:
- JSON values are an inductive `Json`; the JSONPath getters from the
  repository's `json-helper.c` (not present under `src/`) are modelled
  from the spec as path lookups.
- External effects (HTTP requests, feedback POSTs, logging, file
  removal, spawning the worker, reboot) are recorded in an ordered
  trace of `Effect` values.
- Results of blocking external calls (the base GET, the deployment GET,
  the artifact download, `statvfs`, `g_remove`, `reboot`) are inputs
  supplied by an environment, so every function is executable.
- The process-wide mutable globals (`action_id`, `thread_download`) and
  the existence of the file at `bundle_download_location` form the
  explicit `ClientState` threaded through the functions.
-/

namespace RaucHawkbit

/-- JSON value model (json-glib `JsonNode`). -/
inductive Json where
  | null : Json
  | bool (b : Bool) : Json
  | num (n : Int) : Json
  | str (s : String) : Json
  | arr (elems : List Json) : Json
  | obj (fields : List (String × Json)) : Json

/-- Lookup of an object member by key (first match). -/
def lookupField : List (String × Json) → String → Option Json
  | [], _ => none
  | (k1, v) :: rest, k => if k1 = k then some v else lookupField rest k

/-- One step of JSONPath navigation: member access on an object. -/
def jsonLookup : Json → String → Option Json
  | Json.obj fields, k => lookupField fields k
  | _, _ => none

/-- Navigation along a member path, e.g. `$.config.polling.sleep` is
the path `["config", "polling", "sleep"]`. -/
def jsonGetPath : Json → List String → Option Json
  | j, [] => some j
  | j, k :: ks =>
      match jsonLookup j k with
      | some v => jsonGetPath v ks
      | none => none

/-- Modelled from the spec: `json_get_string` of the repository's
`json-helper.c` (not under `src/`) returns the string value at the
JSONPath, or NULL when the path is absent or not a string. -/
def json_get_string (root : Json) (path : List String) : Option String :=
  match jsonGetPath root path with
  | some (Json.str s) => some s
  | _ => none

/-- Modelled from the spec: `json_get_int` of the repository's
`json-helper.c` (not under `src/`) returns the integer at the JSONPath,
or 0 when the path is absent (the `GError` out-argument is passed as
NULL at every call site in `hawkbit-client.c`). -/
def json_get_int (root : Json) (path : List String) : Int :=
  match jsonGetPath root path with
  | some (Json.num n) => n
  | _ => 0

/-- Modelled from the spec: `json_get_array` of the repository's
`json-helper.c` (not under `src/`) returns the array at the JSONPath,
or NULL when the path is absent or not an array. -/
def json_get_array (root : Json) (path : List String) : Option (List Json) :=
  match jsonGetPath root path with
  | some (Json.arr elems) => some elems
  | _ => none

/-- Modelled from the spec: `json_contains` of the repository's
`json-helper.c` (not under `src/`) tells whether the JSONPath exists in
the document. -/
def json_contains (root : Json) (path : List String) : Bool :=
  (jsonGetPath root path).isSome

/-- Does a JSON object carry a member named `k` at top level? -/
def jsonHasMember (j : Json) (k : String) : Bool :=
  match j with
  | Json.obj fields => fields.any (fun p => p.1 = k)
  | _ => false

/-- The `Config` structure filled from the configuration file
(`hawkbit-client.h`); immutable after `hawkbit_init`. -/
structure Config where
  hawkbit_server : String
  ssl : Bool
  ssl_verify : Bool
  tenant_id : String
  controller_id : String
  auth_token : Option String
  gateway_token : Option String
  retry_wait : Int
  connect_timeout : Int
  timeout : Int
  bundle_download_location : String
  post_update_reboot : Bool
  device : Option (List (String × String))

/-- The `struct artifact` built by `process_deployment` and owned by the
download worker. Fields obtained from `json_get_string` may be NULL. -/
structure Artifact where
  name : Option String
  version : Option String
  size : Int
  download_url : Option String
  feedback_url : String
  sha1 : Option String

/-- The process-wide mutable state of `hawkbit-client.c`: the globals
`action_id` and `thread_download`, plus the existence of the file at
`bundle_download_location` (observed via `g_file_test`). -/
structure ClientState where
  action_id : Option String
  thread_download : Option Artifact
  bundle_file_exists : Bool

/-- GLib logging levels used by the source. -/
inductive LogLevel where
  | debug
  | message
  | warning
  | critical

/-- Errors produced by `rest_request`/`get_binary`: libcurl transport
errors, non-200 HTTP statuses, and JSON response parse failures. Each
carries the numeric code used by `g_error_matches`. -/
inductive RestError where
  | curl (code : Int) (msg : String)
  | http (code : Int) (body : String)
  | jsonParse (code : Int) (msg : String)

/-- The message text the source formats into the `GError`. -/
def restErrorMessage : RestError → String
  | RestError.curl _ msg => msg
  | RestError.http code body =>
      "HTTP request failed: " ++ toString code ++ "; server response: " ++ body
  | RestError.jsonParse _ msg => msg

/-- The numeric code of a `RestError`, as read from `error->code`. -/
def restErrorCode : RestError → Int
  | RestError.curl code _ => code
  | RestError.http code _ => code
  | RestError.jsonParse code _ => code

/-- The `GError` values set by `process_deployment` and propagated to
`hawkbit_pull_cb`, identified by domain and code as the source does with
`g_error_matches`. -/
inductive GErr where
  | alreadyInProgress (msg : String)
  | jsonResponseParse (msg : String)
  | plain (domain code : Int) (msg : String)
  | rest (e : RestError)
  | fileError (msg : String)

/-- The `error->message` read by the caller for logging. -/
def gerrMessage : GErr → String
  | GErr.alreadyInProgress msg => msg
  | GErr.jsonResponseParse msg => msg
  | GErr.plain _ _ msg => msg
  | GErr.rest e => restErrorMessage e
  | GErr.fileError msg => msg

/-- Observable effects, recorded in program order. -/
inductive Effect where
  | log (lvl : LogLevel) (msg : String)
  | restReq (method : String) (url : String) (body : Option Json)
  | feedbackPost (url : String) (id : Option String)
      (detail : String) (finished : String) (execution : String)
  | publishActionId (v : Option String)
  | freeOldActionId (old : Option String)
  | removeFile (ok : Bool) (path : String)
  | joinWorker
  | spawnWorker
  | invokeSoftwareReady (file : String)
  | syncDisks
  | rebootNow
  | quitLoop

/-- printf `%s` rendering of a possibly-NULL C string (glib prints
`(null)` for NULL). -/
def cstr : Option String → String
  | some s => s
  | none => "(null)"

/-- The `build_api_url` URL composition:
`scheme://server/tenant/controller/v1/controllerId[/path]`. -/
def build_api_url (cfg : Config) (path : Option String) : String :=
  (if cfg.ssl then "https" else "http") ++ "://" ++ cfg.hawkbit_server ++ "/" ++
    cfg.tenant_id ++ "/controller/v1/" ++ cfg.controller_id ++
    (match path with
     | some p => "/" ++ p
     | none => "")

/-- The `json_build_status` feedback envelope builder. The current UTC
time string (`strftime "%Y%m%dT%H%M%S"`) is an input. Member order and
presence follow the source: optional `id`, then `time`, then `status`
(holding `result.finished`, `execution`, and optional `details`), then
optional `data` whenever the map pointer is non-NULL. -/
def json_build_status (timeString : String) (id : Option String)
    (detail : Option String) (result : String) (execution : String)
    (data : Option (List (String × String))) : Json :=
  Json.obj
    ((match id with
      | some i => [("id", Json.str i)]
      | none => []) ++
     [("time", Json.str timeString),
      ("status", Json.obj
        ([("result", Json.obj [("finished", Json.str result)]),
          ("execution", Json.str execution)] ++
         (match detail with
          | some d => [("details", Json.arr [Json.str d])]
          | none => [])))] ++
     (match data with
      | some m => [("data", Json.obj (m.map (fun p => (p.1, Json.str p.2))))]
      | none => []))

/-- Header list built by `rest_request`: `Accept`, then at most one
`Authorization` (TargetToken preferred over GatewayToken), then
`Content-Type` when a request body is present. -/
def rest_request_headers (cfg : Config) (hasBody : Bool) : List String :=
  ["Accept: application/json;charset=UTF-8"] ++
  (match cfg.auth_token with
   | some t => ["Authorization: TargetToken " ++ t]
   | none =>
     match cfg.gateway_token with
     | some t => ["Authorization: GatewayToken " ++ t]
     | none => []) ++
  (if hasBody then ["Content-Type: application/json;charset=UTF-8"] else [])

/-- Header list built by `get_binary`: `Accept: application/octet-stream`,
then at most one `Authorization` (TargetToken preferred). -/
def get_binary_headers (cfg : Config) : List String :=
  ["Accept: application/octet-stream"] ++
  (match cfg.auth_token with
   | some t => ["Authorization: TargetToken " ++ t]
   | none =>
     match cfg.gateway_token with
     | some t => ["Authorization: GatewayToken " ++ t]
     | none => [])

/-- A header string is an Authorization header when its first 15
characters read `Authorization: `. -/
def isAuthHeader (h : String) : Bool :=
  h.data.take 15 == "Authorization: ".data

/-- The `strptime(s, "%T", &tm)` parse of an `HH:MM:SS` string, agreeing
with the C library on well-formed inputs: three colon-separated decimal
fields of one or two digits, hours at most 23, minutes at most 59,
seconds at most 60. Malformed inputs yield `none`; the caller then falls
back to an environment-supplied value, over-approximating the C code's
use of the uninitialized `struct tm`. -/
def parseTimeHMS (s : String) : Option (Nat × Nat × Nat) :=
  match s.splitOn ":" with
  | [h, m, sec] =>
      match h.toNat?, m.toNat?, sec.toNat? with
      | some hv, some mv, some sv =>
          if 0 < h.length ∧ h.length ≤ 2 ∧ 0 < m.length ∧ m.length ≤ 2 ∧
             0 < sec.length ∧ sec.length ≤ 2 ∧ hv ≤ 23 ∧ mv ≤ 59 ∧ sv ≤ 60 then
            some (hv, mv, sv)
          else none
      | _, _, _ => none
  | _ => none

/-- The `json_get_sleeptime` helper: `config.polling.sleep` missing
falls back to `retry_wait`; otherwise the `HH:MM:SS` value is converted
to seconds as `tm_sec + tm_min * 60 + tm_hour * 60 * 60`. `uninitSleep`
stands for the value computed from the uninitialized `struct tm` when
`strptime` does not parse the string (the C code ignores `strptime`'s
return value). -/
def json_get_sleeptime (cfg : Config) (uninitSleep : Int) (root : Json) : Int :=
  match json_get_string root ["config", "polling", "sleep"] with
  | none => cfg.retry_wait
  | some s =>
      match parseTimeHMS s with
      | some (h, m, sec) => (sec : Int) + (m : Int) * 60 + (h : Int) * 60 * 60
      | none => uninitSleep

/-- Session teardown `process_deployment_cleanup`: publish NULL into the
`action_id` global, free the previous value, then remove the downloaded
file if it exists (`unlinkOk` is the success of `g_remove`; failure is
logged at debug and ignored). -/
def process_deployment_cleanup (cfg : Config) (unlinkOk : Bool)
    (st : ClientState) : ClientState × List Effect :=
  let st1 : ClientState := { st with action_id := none }
  let tr1 : List Effect :=
    [Effect.publishActionId none, Effect.freeOldActionId st.action_id]
  if st.bundle_file_exists then
    if unlinkOk then
      ({ st1 with bundle_file_exists := false },
       tr1 ++ [Effect.removeFile true cfg.bundle_download_location])
    else
      (st1,
       tr1 ++ [Effect.removeFile false cfg.bundle_download_location,
               Effect.log LogLevel.debug
                 ("Failed to delete file: " ++ cfg.bundle_download_location)])
  else (st1, tr1)

/-- Output of `install_complete_cb`: final state, trace, the returned
`G_SOURCE_REMOVE`/`G_SOURCE_CONTINUE` flag, and whether the process
rebooted (in which case nothing after the `reboot` call runs). -/
structure CompleteOut where
  st : ClientState
  trace : List Effect
  keepSource : Bool
  rebooted : Bool

/-- The installer completion callback `install_complete_cb`. Everything
is guarded by `if (action_id)`. On success it POSTs a terminal success
feedback and, when `post_update_reboot` is set, tears the session down,
syncs and reboots (continuing only if `reboot` fails, `rebootOk =
false`); on failure it POSTs a terminal failure feedback. The trailing
unconditional teardown mirrors the source. -/
def install_complete_cb (cfg : Config) (unlinkOk rebootOk : Bool)
    (install_success : Bool) (st : ClientState) : CompleteOut :=
  match st.action_id with
  | none => { st := st, trace := [], keepSource := false, rebooted := false }
  | some aid =>
      let url := build_api_url cfg (some ("deploymentBase/" ++ aid ++ "/feedback"))
      if install_success then
        let tr0 : List Effect :=
          [Effect.log LogLevel.message "Software bundle installed successful.",
           Effect.feedbackPost url (some aid)
             "Software bundle installed successful." "success" "closed"]
        if cfg.post_update_reboot then
          let c1 := process_deployment_cleanup cfg unlinkOk st
          if rebootOk then
            { st := c1.1,
              trace := tr0 ++ c1.2 ++ [Effect.syncDisks, Effect.rebootNow],
              keepSource := false, rebooted := true }
          else
            let c2 := process_deployment_cleanup cfg unlinkOk c1.1
            { st := c2.1,
              trace := tr0 ++ c1.2 ++
                [Effect.syncDisks, Effect.rebootNow,
                 Effect.log LogLevel.critical "Failed to reboot"] ++ c2.2,
              keepSource := false, rebooted := false }
        else
          let c := process_deployment_cleanup cfg unlinkOk st
          { st := c.1, trace := tr0 ++ c.2, keepSource := false, rebooted := false }
      else
        let tr0 : List Effect :=
          [Effect.log LogLevel.critical "Failed to install software bundle.",
           Effect.feedbackPost url (some aid)
             "Failed to install software bundle." "failure" "closed"]
        let c := process_deployment_cleanup cfg unlinkOk st
        { st := c.1, trace := tr0 ++ c.2, keepSource := false, rebooted := false }

/-- Result of the blocking `get_binary` call made by the worker, as
supplied by the environment: on failure, whether `fopen` had already
created the file, and the `GError` message; on success, the computed
SHA-1 hex digest and the formatted average speed (printf `%.2f` of a
double, abstracted as a string input). -/
inductive DownloadResult where
  | err (fileCreated : Bool) (msg : String)
  | ok (sha1 : String) (speedStr : String)

/-- Output of the worker body: final state and trace. -/
structure WorkerOut where
  st : ClientState
  trace : List Effect

/-- The download worker `download_thread`. Downloads to
`bundle_download_location`, reports completion, verifies the SHA-1 with
`g_strcmp0(artifact->sha1, sha1sum)`, and either hands the bundle to the
software-ready callback or (on download failure or checksum mismatch)
sends terminal failure feedback and tears the session down. -/
def download_thread (cfg : Config) (unlinkOk : Bool) (art : Artifact)
    (dl : DownloadResult) (st : ClientState) : WorkerOut :=
  let tr0 : List Effect :=
    [Effect.log LogLevel.message ("Start downloading: " ++ cstr art.download_url)]
  match dl with
  | DownloadResult.err fileCreated emsg =>
      let stf : ClientState :=
        { st with bundle_file_exists := st.bundle_file_exists || fileCreated }
      let msg := "Download failed: " ++ emsg
      let tr1 := tr0 ++
        [Effect.log LogLevel.critical msg,
         Effect.feedbackPost art.feedback_url st.action_id msg "failure" "closed"]
      let c := process_deployment_cleanup cfg unlinkOk stf
      { st := c.1, trace := tr1 ++ c.2 }
  | DownloadResult.ok sha1 speedStr =>
      let st1 : ClientState := { st with bundle_file_exists := true }
      let dmsg := "Download complete. " ++ speedStr ++ " MB/s"
      let tr1 := tr0 ++
        [Effect.feedbackPost art.feedback_url st.action_id dmsg "none" "proceeding",
         Effect.log LogLevel.message dmsg]
      if art.sha1 = some sha1 then
        { st := st1,
          trace := tr1 ++
            [Effect.log LogLevel.message "File checksum OK.",
             Effect.feedbackPost art.feedback_url st.action_id
               "File checksum OK." "none" "proceeding",
             Effect.invokeSoftwareReady cfg.bundle_download_location] }
      else
        let msg := "Software: " ++ cstr art.name ++ " V" ++ cstr art.version ++
          ". Invalid checksum: " ++ sha1 ++ " expected " ++ cstr art.sha1
        let tr2 := tr1 ++
          [Effect.feedbackPost art.feedback_url st.action_id msg "failure" "closed",
           Effect.log LogLevel.critical msg]
        let c := process_deployment_cleanup cfg unlinkOk st1
        { st := c.1, trace := tr2 ++ c.2 }

/-- Environment for one deployment intake: the server's response to the
deployment GET, the `statvfs`-derived free space of the bundle
directory (or its error message), and the success of `g_remove`. -/
structure DeployEnv where
  deployResult : Except RestError Json
  freespace : Except String Int
  unlinkOk : Bool

/-- Output of `process_deployment`: final state, trace, and the
function's boolean result together with the `GError` it set. -/
structure ProcOut where
  st : ClientState
  trace : List Effect
  result : Except GErr Unit

/-- The shared `proc_error` tail of `process_deployment` for the three
"Failed to parse deployment resource." paths: send the failure feedback,
set the parse error, and run artifact cleanup plus session teardown. -/
def deploy_parse_fail (cfg : Config) (unlinkOk : Bool) (tr : List Effect)
    (st1 : ClientState) (feedback_url : String) (aid : String) : ProcOut :=
  let c := process_deployment_cleanup cfg unlinkOk st1
  { st := c.1,
    trace := tr ++
      [Effect.feedbackPost feedback_url (some aid)
        "Failed to parse deployment resource." "failure" "closed"] ++ c.2,
    result := Except.error (GErr.jsonResponseParse "Failed to parse deployment resource.") }

/-- The deployment intake `process_deployment`, mirroring the source's
control flow: the already-in-progress guard, the `deploymentBase.href`
extraction, the deployment GET, the commit of the `action_id` global
from `$.id`, the chunk/artifact/download-URL extraction (with the
`https` URL favoured over the `download-http` one), the free-space
check, and finally joining any previous worker and spawning the new
download worker with the artifact. -/
def process_deployment (cfg : Config) (env : DeployEnv) (st : ClientState)
    (req_root : Json) : ProcOut :=
  match st.action_id with
  | some aid =>
      { st := st, trace := [],
        result := Except.error (GErr.alreadyInProgress
          ("Deployment " ++ aid ++ " is already in progress.")) }
  | none =>
      match json_get_string req_root ["_links", "deploymentBase", "href"] with
      | none =>
          { st := st, trace := [],
            result := Except.error (GErr.jsonResponseParse
              "Failed to parse deployment base response.") }
      | some deployment =>
          let tr0 : List Effect := [Effect.restReq "GET" deployment none]
          match env.deployResult with
          | Except.error e =>
              { st := st, trace := tr0, result := Except.error (GErr.rest e) }
          | Except.ok resp_root =>
              match json_get_string resp_root ["id"] with
              | none =>
                  { st := { st with action_id := none }, trace := tr0,
                    result := Except.error (GErr.plain 1 1
                      "Failed to parse deployment base response.") }
              | some aid =>
                  let st1 : ClientState := { st with action_id := some aid }
                  let feedback_url :=
                    build_api_url cfg (some ("deploymentBase/" ++ aid ++ "/feedback"))
                  match json_get_array resp_root ["deployment", "chunks"] with
                  | none => deploy_parse_fail cfg env.unlinkOk tr0 st1 feedback_url aid
                  | some [] => deploy_parse_fail cfg env.unlinkOk tr0 st1 feedback_url aid
                  | some (json_chunk :: _) =>
                      match json_get_array json_chunk ["artifacts"] with
                      | none => deploy_parse_fail cfg env.unlinkOk tr0 st1 feedback_url aid
                      | some [] => deploy_parse_fail cfg env.unlinkOk tr0 st1 feedback_url aid
                      | some (json_artifact :: _) =>
                          let artifact : Artifact :=
                            { version := json_get_string json_chunk ["version"],
                              name := json_get_string json_chunk ["name"],
                              size := json_get_int json_artifact ["size"],
                              sha1 := json_get_string json_artifact ["hashes", "sha1"],
                              feedback_url := feedback_url,
                              download_url :=
                                json_get_string json_artifact
                                    ["_links", "download", "href"] <|>
                                  json_get_string json_artifact
                                    ["_links", "download-http", "href"] }
                          match artifact.download_url with
                          | none => deploy_parse_fail cfg env.unlinkOk tr0 st1 feedback_url aid
                          | some _ =>
                              let tr1 := tr0 ++
                                [Effect.log LogLevel.message
                                  ("New software ready for download. (Name: " ++
                                   cstr artifact.name ++ ", Version: " ++
                                   cstr artifact.version ++ ", Size: " ++
                                   toString artifact.size ++ ", URL: " ++
                                   cstr artifact.download_url ++ ")")]
                              match env.freespace with
                              | Except.error fsmsg =>
                                  let c := process_deployment_cleanup cfg env.unlinkOk st1
                                  { st := c.1,
                                    trace := tr1 ++
                                      [Effect.feedbackPost feedback_url (some aid)
                                        fsmsg "failure" "closed"] ++ c.2,
                                    result := Except.error (GErr.fileError fsmsg) }
                              | Except.ok freespace =>
                                  if freespace < artifact.size then
                                    let msg := "Not enough free space. File size: " ++
                                      toString artifact.size ++ ". Free space: " ++
                                      toString freespace
                                    let c := process_deployment_cleanup cfg env.unlinkOk st1
                                    { st := c.1,
                                      trace := tr1 ++
                                        [Effect.log LogLevel.debug msg,
                                         Effect.feedbackPost feedback_url (some aid)
                                           msg "failure" "closed"] ++ c.2,
                                      result := Except.error (GErr.plain 1 23 msg) }
                                  else
                                    let joinTr : List Effect :=
                                      match st.thread_download with
                                      | some _ => [Effect.joinWorker]
                                      | none => []
                                    { st := { st1 with thread_download := some artifact },
                                      trace := tr1 ++ joinTr ++ [Effect.spawnWorker],
                                      result := Except.ok () }

/-- The caller-side logging of a `process_deployment` failure in
`hawkbit_pull_cb`: `ALREADY_IN_PROGRESS` goes to `g_debug`, every other
error to `g_warning`. -/
def log_process_deployment_error : GErr → Effect
  | GErr.alreadyInProgress msg => Effect.log LogLevel.debug msg
  | e => Effect.log LogLevel.warning (gerrMessage e)

/-- The `ClientData` carried by the poll timer: the one-shot exit code,
the polling interval, and the seconds elapsed since the last poll. -/
structure ClientData where
  res : Int
  hawkbit_interval_check_sec : Int
  last_run_sec : Int

/-- Environment for one poll tick: the current UTC time string, the
result of the base GET, the result of the identify PUT, the deployment
environment, and the fallback sleep value standing for the
uninitialized `struct tm` in `json_get_sleeptime`. -/
structure TickEnv where
  now : String
  baseResult : Except RestError Json
  identifyResult : Except RestError Unit
  deploy : DeployEnv
  uninitSleep : Int

/-- Output of one `hawkbit_pull_cb` tick: timer data, client state,
trace, the glib source flag (`true` = `G_SOURCE_CONTINUE`), and whether
`g_main_loop_quit` ran. -/
structure TickOut where
  data : ClientData
  st : ClientState
  trace : List Effect
  keepSource : Bool
  quit : Bool

/-- The `out:` tail of `hawkbit_pull_cb`: in `run_once` mode store the
exit code, quit the loop and remove the source; otherwise continue. -/
def finish_tick (run_once : Bool) (res : Bool) (data : ClientData)
    (st : ClientState) (tr : List Effect) : TickOut :=
  if run_once then
    { data := { data with res := if res then 0 else 1 }, st := st,
      trace := tr ++ [Effect.quitLoop], keepSource := false, quit := true }
  else
    { data := data, st := st, trace := tr, keepSource := true, quit := false }

/-- The warnings logged when the base GET fails: HTTP 401 produces a
token-specific warning for each configured token kind, any other error a
generic warning carrying the message and code. -/
def base_fail_warnings (cfg : Config) : RestError → List Effect
  | RestError.http 401 _ =>
      (match cfg.auth_token with
       | some _ =>
           [Effect.log LogLevel.warning
             "Failed to authenticate. Check if auth_token is correct?"]
       | none => []) ++
      (match cfg.gateway_token with
       | some _ =>
           [Effect.log LogLevel.warning
             "Failed to authenticate. Check if gateway_token is correct?"]
       | none => [])
  | e =>
      [Effect.log LogLevel.warning
        ("Scheduled check for new software failed: " ++ restErrorMessage e ++
         " (" ++ toString (restErrorCode e) ++ ")")]

/-- The poll timer callback `hawkbit_pull_cb`. Fires every second;
polls only when `last_run_sec` reaches the interval. On base GET
failure the interval reverts to `retry_wait`; on success it becomes the
server-advertised sleep. The identify PUT runs when `configData` is
linked, the deployment intake when `deploymentBase` is linked, and the
`res` flag is reassigned by each, so the tick result is the result of
the last action performed. -/
def hawkbit_pull_cb (cfg : Config) (run_once : Bool) (env : TickEnv)
    (data : ClientData) (st : ClientState) : TickOut :=
  if data.last_run_sec + 1 < data.hawkbit_interval_check_sec then
    { data := { data with last_run_sec := data.last_run_sec + 1 }, st := st,
      trace := [], keepSource := true, quit := false }
  else
    let data1 : ClientData := { data with last_run_sec := 0 }
    let get_tasks_url := build_api_url cfg none
    let tr0 : List Effect :=
      [Effect.log LogLevel.message "Checking for new software...",
       Effect.restReq "GET" get_tasks_url none]
    match env.baseResult with
    | Except.error e =>
        let data2 : ClientData :=
          { data1 with hawkbit_interval_check_sec := cfg.retry_wait }
        finish_tick run_once false data2 st (tr0 ++ base_fail_warnings cfg e)
    | Except.ok root =>
        let data2 : ClientData :=
          { data1 with hawkbit_interval_check_sec :=
              json_get_sleeptime cfg env.uninitSleep root }
        let identTr : List Effect :=
          if json_contains root ["_links", "configData"] then
            [Effect.log LogLevel.debug "Identifying ourself to hawkbit server",
             Effect.restReq "PUT" (build_api_url cfg (some "configData"))
               (some (json_build_status env.now none none "success" "closed"
                 cfg.device))] ++
            (match env.identifyResult with
             | Except.ok _ => []
             | Except.error e => [Effect.log LogLevel.warning (restErrorMessage e)])
          else []
        let res1 : Bool :=
          if json_contains root ["_links", "configData"] then
            match env.identifyResult with
            | Except.ok _ => true
            | Except.error _ => false
          else true
        let step2 : Bool × ClientState × List Effect :=
          if json_contains root ["_links", "deploymentBase"] then
            let p := process_deployment cfg env.deploy st root
            match p.result with
            | Except.ok _ => (true, p.st, p.trace)
            | Except.error e => (false, p.st, p.trace ++ [log_process_deployment_error e])
          else
            (res1, st, [Effect.log LogLevel.message "No new software."])
        let cancelTr : List Effect :=
          if json_contains root ["_links", "cancelAction"] then
            [Effect.log LogLevel.warning "cancel action not supported"]
          else []
        finish_tick run_once step2.1 data2 step2.2.1
          (tr0 ++ identTr ++ step2.2.2 ++ cancelTr)

/-- Is the effect a feedback POST (any kind)? -/
def Effect.isFeedbackPost : Effect → Bool
  | Effect.feedbackPost _ _ _ _ _ => true
  | _ => false

/-- Is the effect a terminal feedback POST, i.e. one with
`execution = closed`? -/
def Effect.isTerminalFeedback : Effect → Bool
  | Effect.feedbackPost _ _ _ _ ex => ex == "closed"
  | _ => false

/-- Is the effect the spawning of the download worker thread? -/
def Effect.isSpawn : Effect → Bool
  | Effect.spawnWorker => true
  | _ => false

/-- Is the effect the invocation of the software-ready callback? -/
def Effect.isSoftwareReady : Effect → Bool
  | Effect.invokeSoftwareReady _ => true
  | _ => false

/-- One string occurs inside another. -/
def containsSubstring (s sub : String) : Prop :=
  ∃ l r, s = l ++ sub ++ r

/-- A sample configuration for concrete evaluations. -/
def sampleConfig : Config :=
  { hawkbit_server := "server.example",
    ssl := true, ssl_verify := true,
    tenant_id := "DEFAULT", controller_id := "dev01",
    auth_token := none, gateway_token := none,
    retry_wait := 60, connect_timeout := 20, timeout := 60,
    bundle_download_location := "/tmp/bundle.raucb",
    post_update_reboot := false,
    device := none }

/-- A state with no active session. -/
def stIdle : ClientState :=
  { action_id := none, thread_download := none, bundle_file_exists := false }

/-- A state with an active session for action `42`. -/
def stActive : ClientState :=
  { action_id := some "42", thread_download := none, bundle_file_exists := false }

/-- A sample deployment environment. -/
def envSample : DeployEnv :=
  { deployResult := Except.error (RestError.curl 7 "connect failed"),
    freespace := Except.ok 0, unlinkOk := true }

/-- A state with an active session and an existing downloaded file. -/
def stFileActive : ClientState :=
  { action_id := some "42", thread_download := none, bundle_file_exists := true }

/-- The session-teardown trace only publishes, frees, removes the file
and logs at debug: filtering it by any predicate that rejects those
effect shapes yields the empty list. -/
theorem cleanup_trace_filter (cfg : Config) (u : Bool) (st : ClientState)
    (p : Effect → Bool)
    (h1 : p (Effect.publishActionId none) = false)
    (h2 : p (Effect.freeOldActionId st.action_id) = false)
    (h3 : ∀ ok path, p (Effect.removeFile ok path) = false)
    (h4 : ∀ m, p (Effect.log LogLevel.debug m) = false) :
    ((process_deployment_cleanup cfg u st).2).filter p = [] := by
  unfold process_deployment_cleanup
  cases hb : st.bundle_file_exists <;> cases u <;>
    simp [hb, List.filter, h1, h2, h3, h4]

/-- The session-teardown state always has a null action ID. -/
theorem cleanup_action_id_none (cfg : Config) (u : Bool) (st : ClientState) :
    (process_deployment_cleanup cfg u st).1.action_id = none := by
  unfold process_deployment_cleanup
  cases hb : st.bundle_file_exists <;> cases u <;> simp [hb]

/-- C1: a base-poll response offering a deployment while `action_id` is
non-null makes `process_deployment` fail immediately with the
`ALREADY_IN_PROGRESS` error: no request and no feedback are issued (the
trace is empty), the state — including the action ID and the download
worker handle — is unchanged, and the caller's error reporting for this
error is a debug log, never a warning. -/
theorem C1_already_in_progress_rejected (cfg : Config) (env : DeployEnv)
    (st : ClientState) (root : Json) (a : String) (h : st.action_id = some a) :
    process_deployment cfg env st root =
      { st := st, trace := [],
        result := Except.error (GErr.alreadyInProgress
          ("Deployment " ++ a ++ " is already in progress.")) } ∧
    log_process_deployment_error
        (GErr.alreadyInProgress ("Deployment " ++ a ++ " is already in progress.")) =
      Effect.log LogLevel.debug ("Deployment " ++ a ++ " is already in progress.") ∧
    (∀ m, log_process_deployment_error
        (GErr.alreadyInProgress ("Deployment " ++ a ++ " is already in progress.")) ≠
      Effect.log LogLevel.warning m) := by
  refine ⟨?_, rfl, ?_⟩
  · unfold process_deployment
    rw [h]
  · intro m
    simp [log_process_deployment_error]

/-- Witness for C1 at a concrete active session. -/
theorem C1_already_in_progress_rejected_witness :
    stActive.action_id = some "42" ∧
    (process_deployment sampleConfig envSample stActive Json.null =
      { st := stActive, trace := [],
        result := Except.error (GErr.alreadyInProgress
          ("Deployment " ++ "42" ++ " is already in progress.")) } ∧
    log_process_deployment_error
        (GErr.alreadyInProgress ("Deployment " ++ "42" ++ " is already in progress.")) =
      Effect.log LogLevel.debug ("Deployment " ++ "42" ++ " is already in progress.") ∧
    (∀ m, log_process_deployment_error
        (GErr.alreadyInProgress ("Deployment " ++ "42" ++ " is already in progress.")) ≠
      Effect.log LogLevel.warning m)) :=
  ⟨rfl, C1_already_in_progress_rejected sampleConfig envSample stActive Json.null "42" rfl⟩

/-- C2 counterexample: when `g_remove` fails (teardown ignores the
failure by design), teardown completes with the action ID null but the
downloaded file still existing — refuting the unconditional "the file no
longer exists". -/
theorem C2_counterexample :
    (process_deployment_cleanup sampleConfig false stFileActive).1.action_id = none ∧
    (process_deployment_cleanup sampleConfig false stFileActive).1.bundle_file_exists =
      true :=
  ⟨rfl, rfl⟩

/-- C2 (amended): whenever session teardown runs, on completion the
action ID is null; the file at the bundle download path no longer exists
provided the unlink succeeded (an unlink failure is logged at debug and
ignored, leaving the file in place); and the null action ID is published
before the previous action-ID string is freed (the publish event
strictly precedes the free event in the trace). -/
theorem C2_teardown_postcondition (cfg : Config) (unlinkOk : Bool)
    (st : ClientState) :
    (process_deployment_cleanup cfg unlinkOk st).1.action_id = none ∧
    (unlinkOk = true →
      (process_deployment_cleanup cfg unlinkOk st).1.bundle_file_exists = false) ∧
    (∃ rest, (process_deployment_cleanup cfg unlinkOk st).2 =
      Effect.publishActionId none :: Effect.freeOldActionId st.action_id :: rest) ∧
    (unlinkOk = false → st.bundle_file_exists = true →
      (process_deployment_cleanup cfg unlinkOk st).1.bundle_file_exists = true ∧
      Effect.log LogLevel.debug
          ("Failed to delete file: " ++ cfg.bundle_download_location) ∈
        (process_deployment_cleanup cfg unlinkOk st).2) := by
  unfold process_deployment_cleanup
  cases hb : st.bundle_file_exists <;> cases unlinkOk <;> simp [hb]

/-- Witness for C2 at a concrete state with an existing file and a
successful unlink. -/
theorem C2_teardown_postcondition_witness :
    (process_deployment_cleanup sampleConfig true stFileActive).1.action_id = none ∧
    (true = true →
      (process_deployment_cleanup sampleConfig true
        stFileActive).1.bundle_file_exists = false) ∧
    (∃ rest, (process_deployment_cleanup sampleConfig true stFileActive).2 =
      Effect.publishActionId none ::
        Effect.freeOldActionId stFileActive.action_id :: rest) ∧
    (true = false → stFileActive.bundle_file_exists = true →
      (process_deployment_cleanup sampleConfig true
        stFileActive).1.bundle_file_exists = true ∧
      Effect.log LogLevel.debug
          ("Failed to delete file: " ++ sampleConfig.bundle_download_location) ∈
        (process_deployment_cleanup sampleConfig true stFileActive).2) :=
  C2_teardown_postcondition sampleConfig true stFileActive

/-- C9: when the installer completion callback runs while the action ID
is null, it is a complete no-op: no feedback, no teardown, no file
removal, no reboot; the state is returned unchanged and the source is
removed. -/
theorem C9_install_complete_noop (cfg : Config) (u rOk ok : Bool)
    (st : ClientState) (h : st.action_id = none) :
    install_complete_cb cfg u rOk ok st =
      { st := st, trace := [], keepSource := false, rebooted := false } := by
  unfold install_complete_cb
  rw [h]

/-- Witness for C9 at a concrete idle state. -/
theorem C9_install_complete_noop_witness :
    stIdle.action_id = none ∧
    install_complete_cb sampleConfig true true true stIdle =
      { st := stIdle, trace := [], keepSource := false, rebooted := false } :=
  ⟨rfl, C9_install_complete_noop sampleConfig true true true stIdle rfl⟩

/-- C10: when a successful base-poll response has no
`config.polling.sleep` member, `json_get_sleeptime` returns `retry_wait`
(for any value of the uninitialized-tm fallback), and the tick's new
polling interval is `retry_wait` rather than the previous interval. -/
theorem C10_missing_sleep_retry_wait (cfg : Config) (uninit : Int) (root : Json)
    (h : json_get_string root ["config", "polling", "sleep"] = none) :
    json_get_sleeptime cfg uninit root = cfg.retry_wait ∧
    (∀ ro env data st, env.baseResult = Except.ok root →
      ¬ data.last_run_sec + 1 < data.hawkbit_interval_check_sec →
      (hawkbit_pull_cb cfg ro env data st).data.hawkbit_interval_check_sec =
        cfg.retry_wait) := by
  constructor
  · unfold json_get_sleeptime
    rw [h]
  · intro ro env data st hbase hpoll
    unfold hawkbit_pull_cb
    rw [if_neg hpoll, hbase]
    cases ro <;>
      simp [finish_tick, json_get_sleeptime, h]

/-- Witness for C10 at a concrete response without a sleep member. -/
theorem C10_missing_sleep_retry_wait_witness :
    json_get_string (Json.obj []) ["config", "polling", "sleep"] = none ∧
    (json_get_sleeptime sampleConfig 7 (Json.obj []) = sampleConfig.retry_wait ∧
    (∀ ro env data st, env.baseResult = Except.ok (Json.obj []) →
      ¬ data.last_run_sec + 1 < data.hawkbit_interval_check_sec →
      (hawkbit_pull_cb sampleConfig ro env data st).data.hawkbit_interval_check_sec =
        sampleConfig.retry_wait)) :=
  ⟨rfl, C10_missing_sleep_retry_wait sampleConfig 7 (Json.obj []) rfl⟩

/-- C6: for a tick that performs a base poll, a successful GET whose
response carries a well-formed `config.polling.sleep` of the form
`HH:MM:SS` sets the new polling interval to hours * 3600 + minutes * 60
+ seconds; a failed GET sets it to `retry_wait`. -/
theorem C6_poll_interval (cfg : Config) (ro : Bool) (env : TickEnv)
    (data : ClientData) (st : ClientState)
    (hpoll : ¬ data.last_run_sec + 1 < data.hawkbit_interval_check_sec) :
    (∀ root s h m sec, env.baseResult = Except.ok root →
      json_get_string root ["config", "polling", "sleep"] = some s →
      parseTimeHMS s = some (h, m, sec) →
      (hawkbit_pull_cb cfg ro env data st).data.hawkbit_interval_check_sec =
        (h : Int) * 3600 + (m : Int) * 60 + (sec : Int)) ∧
    (∀ e, env.baseResult = Except.error e →
      (hawkbit_pull_cb cfg ro env data st).data.hawkbit_interval_check_sec =
        cfg.retry_wait) := by
  constructor
  · intro root s h m sec hbase hs hparse
    unfold hawkbit_pull_cb
    rw [if_neg hpoll, hbase]
    cases ro <;> simp [finish_tick, json_get_sleeptime, hs, hparse] <;> ring
  · intro e hbase
    unfold hawkbit_pull_cb
    rw [if_neg hpoll, hbase]
    cases ro <;> simp [finish_tick]

/-- A concrete base-poll response advertising a five-minute sleep. -/
def sleepRoot : Json :=
  Json.obj [("config", Json.obj [("polling",
    Json.obj [("sleep", Json.str "00:05:00")])])]

/-- A sample tick environment whose base GET returns `sleepRoot`. -/
def envSleepTick : TickEnv :=
  { now := "20260101T000000",
    baseResult := Except.ok sleepRoot,
    identifyResult := Except.ok (),
    deploy := envSample,
    uninitSleep := 0 }

/-- Witness for C6 at a concrete response with sleep `00:05:00`. -/
theorem C6_poll_interval_witness :
    (¬ (59 : Int) + 1 < 60) ∧
    ((∀ root s h m sec, envSleepTick.baseResult = Except.ok root →
      json_get_string root ["config", "polling", "sleep"] = some s →
      parseTimeHMS s = some (h, m, sec) →
      (hawkbit_pull_cb sampleConfig true envSleepTick
          { res := 0, hawkbit_interval_check_sec := 60, last_run_sec := 59 }
          stIdle).data.hawkbit_interval_check_sec =
        (h : Int) * 3600 + (m : Int) * 60 + (sec : Int)) ∧
    (∀ e, envSleepTick.baseResult = Except.error e →
      (hawkbit_pull_cb sampleConfig true envSleepTick
          { res := 0, hawkbit_interval_check_sec := 60, last_run_sec := 59 }
          stIdle).data.hawkbit_interval_check_sec = sampleConfig.retry_wait)) :=
  ⟨by decide,
   C6_poll_interval sampleConfig true envSleepTick
     { res := 0, hawkbit_interval_check_sec := 60, last_run_sec := 59 }
     stIdle (by decide)⟩

/-- C3: after a successful download whose computed SHA-1 differs from
the declared `artifact.sha1`, the worker sends exactly one terminal
(closed) feedback, it is a failure feedback whose detail contains both
the computed and the declared hash, the session is torn down (action ID
null on exit), and the software-ready callback is never invoked. -/
theorem C3_checksum_mismatch (cfg : Config) (u : Bool) (art : Artifact)
    (sha1 declared speedStr : String) (st : ClientState)
    (hdecl : art.sha1 = some declared) (hne : declared ≠ sha1) :
    (download_thread cfg u art (DownloadResult.ok sha1 speedStr) st).trace.filter
        Effect.isTerminalFeedback =
      [Effect.feedbackPost art.feedback_url st.action_id
        ("Software: " ++ cstr art.name ++ " V" ++ cstr art.version ++
         ". Invalid checksum: " ++ sha1 ++ " expected " ++ declared)
        "failure" "closed"] ∧
    containsSubstring
      ("Software: " ++ cstr art.name ++ " V" ++ cstr art.version ++
       ". Invalid checksum: " ++ sha1 ++ " expected " ++ declared) sha1 ∧
    containsSubstring
      ("Software: " ++ cstr art.name ++ " V" ++ cstr art.version ++
       ". Invalid checksum: " ++ sha1 ++ " expected " ++ declared) declared ∧
    (download_thread cfg u art (DownloadResult.ok sha1 speedStr) st).st.action_id =
      none ∧
    (download_thread cfg u art (DownloadResult.ok sha1 speedStr) st).trace.filter
        Effect.isSoftwareReady = [] := by
  have key : download_thread cfg u art (DownloadResult.ok sha1 speedStr) st =
      { st := (process_deployment_cleanup cfg u
          { st with bundle_file_exists := true }).1,
        trace :=
          [Effect.log LogLevel.message ("Start downloading: " ++ cstr art.download_url),
           Effect.feedbackPost art.feedback_url st.action_id
             ("Download complete. " ++ speedStr ++ " MB/s") "none" "proceeding",
           Effect.log LogLevel.message ("Download complete. " ++ speedStr ++ " MB/s"),
           Effect.feedbackPost art.feedback_url st.action_id
             ("Software: " ++ cstr art.name ++ " V" ++ cstr art.version ++
              ". Invalid checksum: " ++ sha1 ++ " expected " ++ declared)
             "failure" "closed",
           Effect.log LogLevel.critical
             ("Software: " ++ cstr art.name ++ " V" ++ cstr art.version ++
              ". Invalid checksum: " ++ sha1 ++ " expected " ++ declared)] ++
          (process_deployment_cleanup cfg u
            { st with bundle_file_exists := true }).2 } := by
    simp [download_thread, hdecl, hne, cstr]
  refine ⟨?_, ?_, ?_, ?_, ?_⟩
  · rw [key]
    simp only [List.filter_append, List.filter_cons, List.filter_nil]
    rw [cleanup_trace_filter cfg u _ Effect.isTerminalFeedback rfl rfl
      (fun _ _ => rfl) (fun _ => rfl)]
    simp [Effect.isTerminalFeedback]
  · exact ⟨"Software: " ++ cstr art.name ++ " V" ++ cstr art.version ++
      ". Invalid checksum: ", " expected " ++ declared, by
        simp [String.append_assoc]⟩
  · exact ⟨"Software: " ++ cstr art.name ++ " V" ++ cstr art.version ++
      ". Invalid checksum: " ++ sha1 ++ " expected ", "", by
        simp [String.append_assoc, String.append_empty]⟩
  · rw [key]
    exact cleanup_action_id_none cfg u _
  · rw [key]
    simp only [List.filter_append, List.filter_cons, List.filter_nil]
    rw [cleanup_trace_filter cfg u _ Effect.isSoftwareReady rfl rfl
      (fun _ _ => rfl) (fun _ => rfl)]
    simp [Effect.isSoftwareReady]

/-- A concrete artifact for the checksum-mismatch witness. -/
def artSample : Artifact :=
  { name := some "bundle", version := some "1.0", size := 1024,
    download_url := some "https://server.example/download/42",
    feedback_url := "https://server.example/DEFAULT/controller/v1/dev01/deploymentBase/42/feedback",
    sha1 := some "da39a3ee5e6b4b0d3255bfef95601890afd80709" }

/-- Witness for C3 at a concrete mismatching download. -/
theorem C3_checksum_mismatch_witness :
    artSample.sha1 = some "da39a3ee5e6b4b0d3255bfef95601890afd80709" ∧
    "da39a3ee5e6b4b0d3255bfef95601890afd80709" ≠ "60cacbf3d72e1e7834203da608037b1bf83b40e8" ∧
    ((download_thread sampleConfig true artSample
        (DownloadResult.ok "60cacbf3d72e1e7834203da608037b1bf83b40e8" "1.00")
        stActive).trace.filter Effect.isTerminalFeedback =
      [Effect.feedbackPost artSample.feedback_url stActive.action_id
        ("Software: " ++ cstr artSample.name ++ " V" ++ cstr artSample.version ++
         ". Invalid checksum: " ++ "60cacbf3d72e1e7834203da608037b1bf83b40e8" ++
         " expected " ++ "da39a3ee5e6b4b0d3255bfef95601890afd80709")
        "failure" "closed"] ∧
    containsSubstring
      ("Software: " ++ cstr artSample.name ++ " V" ++ cstr artSample.version ++
       ". Invalid checksum: " ++ "60cacbf3d72e1e7834203da608037b1bf83b40e8" ++
       " expected " ++ "da39a3ee5e6b4b0d3255bfef95601890afd80709")
      "60cacbf3d72e1e7834203da608037b1bf83b40e8" ∧
    containsSubstring
      ("Software: " ++ cstr artSample.name ++ " V" ++ cstr artSample.version ++
       ". Invalid checksum: " ++ "60cacbf3d72e1e7834203da608037b1bf83b40e8" ++
       " expected " ++ "da39a3ee5e6b4b0d3255bfef95601890afd80709")
      "da39a3ee5e6b4b0d3255bfef95601890afd80709" ∧
    (download_thread sampleConfig true artSample
        (DownloadResult.ok "60cacbf3d72e1e7834203da608037b1bf83b40e8" "1.00")
        stActive).st.action_id = none ∧
    (download_thread sampleConfig true artSample
        (DownloadResult.ok "60cacbf3d72e1e7834203da608037b1bf83b40e8" "1.00")
        stActive).trace.filter Effect.isSoftwareReady = []) :=
  ⟨rfl, by decide,
   C3_checksum_mismatch sampleConfig true artSample
     "60cacbf3d72e1e7834203da608037b1bf83b40e8"
     "da39a3ee5e6b4b0d3255bfef95601890afd80709" "1.00" stActive rfl (by decide)⟩

/-- A TargetToken header is an Authorization header. -/
theorem isAuthHeader_target (t : String) :
    isAuthHeader ("Authorization: TargetToken " ++ t) = true := by
  unfold isAuthHeader
  rw [String.data_append, List.take_append_of_le_length (by decide)]
  decide

/-- A GatewayToken header is an Authorization header. -/
theorem isAuthHeader_gateway (t : String) :
    isAuthHeader ("Authorization: GatewayToken " ++ t) = true := by
  unfold isAuthHeader
  rw [String.data_append, List.take_append_of_le_length (by decide)]
  decide

/-- The Accept header for JSON is not an Authorization header. -/
theorem isAuthHeader_accept_json :
    isAuthHeader "Accept: application/json;charset=UTF-8" = false := by decide

/-- The Accept header for binary downloads is not an Authorization
header. -/
theorem isAuthHeader_accept_octet :
    isAuthHeader "Accept: application/octet-stream" = false := by decide

/-- The Content-Type header is not an Authorization header. -/
theorem isAuthHeader_content_type :
    isAuthHeader "Content-Type: application/json;charset=UTF-8" = false := by decide

/-- C7: every header list built by `rest_request` and by `get_binary`
carries at most one Authorization header; it is the TargetToken header
whenever `auth_token` is configured (even if `gateway_token` is too),
the GatewayToken header when only `gateway_token` is configured, and
there is no Authorization header when neither is configured. -/
theorem C7_authorization_headers (cfg : Config) (hasBody : Bool) :
    ((rest_request_headers cfg hasBody).filter isAuthHeader).length ≤ 1 ∧
    ((get_binary_headers cfg).filter isAuthHeader).length ≤ 1 ∧
    (∀ t, cfg.auth_token = some t →
      (rest_request_headers cfg hasBody).filter isAuthHeader =
          ["Authorization: TargetToken " ++ t] ∧
      (get_binary_headers cfg).filter isAuthHeader =
          ["Authorization: TargetToken " ++ t]) ∧
    (∀ t, cfg.auth_token = none → cfg.gateway_token = some t →
      (rest_request_headers cfg hasBody).filter isAuthHeader =
          ["Authorization: GatewayToken " ++ t] ∧
      (get_binary_headers cfg).filter isAuthHeader =
          ["Authorization: GatewayToken " ++ t]) ∧
    (cfg.auth_token = none → cfg.gateway_token = none →
      (rest_request_headers cfg hasBody).filter isAuthHeader = [] ∧
      (get_binary_headers cfg).filter isAuthHeader = []) := by
  have hfilter :
      (rest_request_headers cfg hasBody).filter isAuthHeader =
        (match cfg.auth_token with
         | some t => ["Authorization: TargetToken " ++ t]
         | none =>
           match cfg.gateway_token with
           | some t => ["Authorization: GatewayToken " ++ t]
           | none => []) ∧
      (get_binary_headers cfg).filter isAuthHeader =
        (match cfg.auth_token with
         | some t => ["Authorization: TargetToken " ++ t]
         | none =>
           match cfg.gateway_token with
           | some t => ["Authorization: GatewayToken " ++ t]
           | none => []) := by
    cases hat : cfg.auth_token <;> cases hgt : cfg.gateway_token <;>
      cases hasBody <;>
      simp [hat, hgt, rest_request_headers, get_binary_headers, List.filter,
        isAuthHeader_accept_json, isAuthHeader_accept_octet,
        isAuthHeader_content_type, isAuthHeader_target, isAuthHeader_gateway]
  refine ⟨?_, ?_, ?_, ?_, ?_⟩
  · rw [hfilter.1]
    cases hat : cfg.auth_token <;> cases hgt : cfg.gateway_token <;> simp
  · rw [hfilter.2]
    cases hat : cfg.auth_token <;> cases hgt : cfg.gateway_token <;> simp
  · intro t hat
    rw [hfilter.1, hfilter.2, hat]
    exact ⟨rfl, rfl⟩
  · intro t hat hgt
    rw [hfilter.1, hfilter.2, hat, hgt]
    exact ⟨rfl, rfl⟩
  · intro hat hgt
    rw [hfilter.1, hfilter.2, hat, hgt]
    exact ⟨rfl, rfl⟩

/-- A configuration carrying both tokens. -/
def cfgBoth : Config :=
  { sampleConfig with auth_token := some "tt", gateway_token := some "gg" }

/-- Witness for C7 at a configuration carrying both tokens: the
TargetToken header wins. -/
theorem C7_authorization_headers_witness :
    ((rest_request_headers cfgBoth true).filter isAuthHeader).length ≤ 1 ∧
    ((get_binary_headers cfgBoth).filter isAuthHeader).length ≤ 1 ∧
    (∀ t, cfgBoth.auth_token = some t →
      (rest_request_headers cfgBoth true).filter isAuthHeader =
          ["Authorization: TargetToken " ++ t] ∧
      (get_binary_headers cfgBoth).filter isAuthHeader =
          ["Authorization: TargetToken " ++ t]) ∧
    (∀ t, cfgBoth.auth_token = none → cfgBoth.gateway_token = some t →
      (rest_request_headers cfgBoth true).filter isAuthHeader =
          ["Authorization: GatewayToken " ++ t] ∧
      (get_binary_headers cfgBoth).filter isAuthHeader =
          ["Authorization: GatewayToken " ++ t]) ∧
    (cfgBoth.auth_token = none → cfgBoth.gateway_token = none →
      (rest_request_headers cfgBoth true).filter isAuthHeader = [] ∧
      (get_binary_headers cfgBoth).filter isAuthHeader = []) :=
  C7_authorization_headers cfgBoth true

/-- C8 counterexample: called with a provided but empty data map, the
envelope builder still emits a `data` member (an empty object), refuting
"data is present only when a non-empty map is provided". -/
theorem C8_counterexample :
    jsonHasMember
      (json_build_status "20260101T000000" none none "success" "closed" (some []))
      "data" = true := by decide

/-- C8 (amended): in every built status envelope the `id` member is
present iff an id was given, `time` is always present (holding the given
time string), `status.details` is present as a one-element array holding
the detail string iff a detail was given, and `data` is present iff a
map was provided — even an empty one, in which case it is an empty
object. -/
theorem C8_envelope_members (ts : String) (id detail : Option String)
    (res exec : String) (data : Option (List (String × String))) :
    jsonHasMember (json_build_status ts id detail res exec data) "id" = id.isSome ∧
    jsonHasMember (json_build_status ts id detail res exec data) "time" = true ∧
    jsonGetPath (json_build_status ts id detail res exec data) ["time"] =
      some (Json.str ts) ∧
    jsonGetPath (json_build_status ts id detail res exec data) ["status", "details"] =
      detail.map (fun d => Json.arr [Json.str d]) ∧
    jsonGetPath (json_build_status ts id detail res exec data)
        ["status", "execution"] = some (Json.str exec) ∧
    jsonGetPath (json_build_status ts id detail res exec data)
        ["status", "result", "finished"] = some (Json.str res) ∧
    jsonHasMember (json_build_status ts id detail res exec data) "data" =
      data.isSome := by
  cases id <;> cases detail <;> cases data <;>
    simp [json_build_status, jsonHasMember, jsonGetPath, jsonLookup, lookupField]

/-- A base-poll response linking a deployment. -/
def reqRootDeploy : Json :=
  Json.obj [("_links", Json.obj [("deploymentBase",
    Json.obj [("href", Json.str "https://server.example/deploy/42")])])]

/-- An artifact node carrying a download URL but no `hashes.sha1` and no
`size` member. -/
def artNoSha1 : Json :=
  Json.obj
    [("_links", Json.obj
      [("download", Json.obj
        [("href", Json.str "https://server.example/download/42")])])]

/-- A chunk node holding `artNoSha1` as its only artifact. -/
def chunkNoSha1 : Json :=
  Json.obj
    [("name", Json.str "bundle"),
     ("version", Json.str "1.0"),
     ("artifacts", Json.arr [artNoSha1])]

/-- A deployment resource whose first artifact has a download URL but no
`hashes.sha1` member (and no `size` member either). -/
def respNoSha1 : Json :=
  Json.obj
    [("id", Json.str "42"),
     ("deployment", Json.obj [("chunks", Json.arr [chunkNoSha1])])]

/-- A deployment environment returning `respNoSha1` with ample free
space. -/
def envNoSha1 : DeployEnv :=
  { deployResult := Except.ok respNoSha1,
    freespace := Except.ok 99999999, unlinkOk := true }

/-- C4 counterexample: a deployment GET response whose artifact is
missing the required SHA-1 hash (and the size) is accepted:
`process_deployment` succeeds, sends no feedback at all, and spawns the
download worker with a NULL `sha1` — refuting "every missing required
field yields the failure feedback and a parse error without spawning the
worker". -/
theorem C4_counterexample :
    json_get_string
        (Json.obj
          [("_links", Json.obj
            [("download", Json.obj
              [("href", Json.str "https://server.example/download/42")])])])
        ["hashes", "sha1"] = none ∧
    (process_deployment sampleConfig envNoSha1 stIdle reqRootDeploy).result =
      Except.ok () ∧
    (process_deployment sampleConfig envNoSha1 stIdle
        reqRootDeploy).trace.filter Effect.isFeedbackPost = [] ∧
    (process_deployment sampleConfig envNoSha1 stIdle reqRootDeploy).st.thread_download =
      some
        { name := some "bundle", version := some "1.0", size := 0,
          download_url := some "https://server.example/download/42",
          feedback_url :=
            "https://server.example/DEFAULT/controller/v1/dev01/deploymentBase/42/feedback",
          sha1 := none } :=
  ⟨rfl, rfl, rfl, rfl⟩

/-- C4 (amended): the deployment-response fields whose absence
`process_deployment` actually checks are: the action id (yielding a
parse error but no feedback), the first chunk, the first artifact, and a
download URL (each of the last three yielding exactly one failure
feedback with detail "Failed to parse deployment resource." and a parse
error, without spawning the worker). The artifact size, SHA-1 hash and
chunk name/version are not validated: with a chunk, an artifact and a
download URL present and enough free space, the worker is spawned even
when `hashes.sha1` is absent. -/
theorem C4_missing_field_checks (cfg : Config) (env : DeployEnv)
    (st : ClientState) (root resp : Json) (dep : String)
    (hact : st.action_id = none)
    (hhref : json_get_string root ["_links", "deploymentBase", "href"] = some dep)
    (hresp : env.deployResult = Except.ok resp) :
    (json_get_string resp ["id"] = none →
      (process_deployment cfg env st root).result =
        Except.error (GErr.plain 1 1 "Failed to parse deployment base response.") ∧
      (process_deployment cfg env st root).trace.filter Effect.isFeedbackPost = [] ∧
      (process_deployment cfg env st root).st.thread_download =
        st.thread_download) ∧
    (∀ aid, json_get_string resp ["id"] = some aid →
      (json_get_array resp ["deployment", "chunks"] = none ∨
       json_get_array resp ["deployment", "chunks"] = some []) →
      (process_deployment cfg env st root).result =
        Except.error (GErr.jsonResponseParse "Failed to parse deployment resource.") ∧
      (process_deployment cfg env st root).trace.filter Effect.isFeedbackPost =
        [Effect.feedbackPost
          (build_api_url cfg (some ("deploymentBase/" ++ aid ++ "/feedback")))
          (some aid) "Failed to parse deployment resource." "failure" "closed"] ∧
      (process_deployment cfg env st root).trace.filter Effect.isSpawn = []) ∧
    (∀ aid chunk chunks, json_get_string resp ["id"] = some aid →
      json_get_array resp ["deployment", "chunks"] = some (chunk :: chunks) →
      (json_get_array chunk ["artifacts"] = none ∨
       json_get_array chunk ["artifacts"] = some []) →
      (process_deployment cfg env st root).result =
        Except.error (GErr.jsonResponseParse "Failed to parse deployment resource.") ∧
      (process_deployment cfg env st root).trace.filter Effect.isFeedbackPost =
        [Effect.feedbackPost
          (build_api_url cfg (some ("deploymentBase/" ++ aid ++ "/feedback")))
          (some aid) "Failed to parse deployment resource." "failure" "closed"] ∧
      (process_deployment cfg env st root).trace.filter Effect.isSpawn = []) ∧
    (∀ aid chunk chunks a as, json_get_string resp ["id"] = some aid →
      json_get_array resp ["deployment", "chunks"] = some (chunk :: chunks) →
      json_get_array chunk ["artifacts"] = some (a :: as) →
      json_get_string a ["_links", "download", "href"] = none →
      json_get_string a ["_links", "download-http", "href"] = none →
      (process_deployment cfg env st root).result =
        Except.error (GErr.jsonResponseParse "Failed to parse deployment resource.") ∧
      (process_deployment cfg env st root).trace.filter Effect.isFeedbackPost =
        [Effect.feedbackPost
          (build_api_url cfg (some ("deploymentBase/" ++ aid ++ "/feedback")))
          (some aid) "Failed to parse deployment resource." "failure" "closed"] ∧
      (process_deployment cfg env st root).trace.filter Effect.isSpawn = []) ∧
    (∀ aid chunk chunks a as u f, json_get_string resp ["id"] = some aid →
      json_get_array resp ["deployment", "chunks"] = some (chunk :: chunks) →
      json_get_array chunk ["artifacts"] = some (a :: as) →
      json_get_string a ["_links", "download", "href"] = some u →
      env.freespace = Except.ok f →
      ¬ f < json_get_int a ["size"] →
      (process_deployment cfg env st root).result = Except.ok () ∧
      (process_deployment cfg env st root).trace.filter Effect.isFeedbackPost = [] ∧
      (process_deployment cfg env st root).st.thread_download =
        some
          { name := json_get_string chunk ["name"],
            version := json_get_string chunk ["version"],
            size := json_get_int a ["size"],
            sha1 := json_get_string a ["hashes", "sha1"],
            feedback_url :=
              build_api_url cfg (some ("deploymentBase/" ++ aid ++ "/feedback")),
            download_url := some u }) := by
  have hfail : ∀ aid,
      (deploy_parse_fail cfg env.unlinkOk
          [Effect.restReq "GET" dep none]
          { st with action_id := some aid }
          (build_api_url cfg (some ("deploymentBase/" ++ aid ++ "/feedback"))) aid).result =
        Except.error (GErr.jsonResponseParse "Failed to parse deployment resource.") ∧
      (deploy_parse_fail cfg env.unlinkOk
          [Effect.restReq "GET" dep none]
          { st with action_id := some aid }
          (build_api_url cfg (some ("deploymentBase/" ++ aid ++ "/feedback"))) aid).trace.filter
          Effect.isFeedbackPost =
        [Effect.feedbackPost
          (build_api_url cfg (some ("deploymentBase/" ++ aid ++ "/feedback")))
          (some aid) "Failed to parse deployment resource." "failure" "closed"] ∧
      (deploy_parse_fail cfg env.unlinkOk
          [Effect.restReq "GET" dep none]
          { st with action_id := some aid }
          (build_api_url cfg (some ("deploymentBase/" ++ aid ++ "/feedback"))) aid).trace.filter
          Effect.isSpawn = [] := by
    intro aid
    refine ⟨rfl, ?_, ?_⟩
    · unfold deploy_parse_fail
      simp only [List.filter_append, List.filter_cons, List.filter_nil]
      rw [cleanup_trace_filter cfg env.unlinkOk _ Effect.isFeedbackPost rfl rfl
        (fun _ _ => rfl) (fun _ => rfl)]
      simp [Effect.isFeedbackPost]
    · unfold deploy_parse_fail
      simp only [List.filter_append, List.filter_cons, List.filter_nil]
      rw [cleanup_trace_filter cfg env.unlinkOk _ Effect.isSpawn rfl rfl
        (fun _ _ => rfl) (fun _ => rfl)]
      simp [Effect.isSpawn]
  refine ⟨?_, ?_, ?_, ?_, ?_⟩
  · intro hid
    unfold process_deployment
    simp only [hact, hhref, hresp, hid]
    refine ⟨trivial, ?_, trivial⟩
    simp [Effect.isFeedbackPost, List.filter]
  · intro aid hid hchunks
    have key : process_deployment cfg env st root =
        deploy_parse_fail cfg env.unlinkOk
          [Effect.restReq "GET" dep none]
          { st with action_id := some aid }
          (build_api_url cfg (some ("deploymentBase/" ++ aid ++ "/feedback"))) aid := by
      unfold process_deployment
      rcases hchunks with hc | hc <;>
        simp only [hact, hhref, hresp, hid, hc]
    rw [key]
    exact hfail aid
  · intro aid chunk chunks hid hchunks harts
    have key : process_deployment cfg env st root =
        deploy_parse_fail cfg env.unlinkOk
          [Effect.restReq "GET" dep none]
          { st with action_id := some aid }
          (build_api_url cfg (some ("deploymentBase/" ++ aid ++ "/feedback"))) aid := by
      unfold process_deployment
      rcases harts with ha | ha <;>
        simp only [hact, hhref, hresp, hid, hchunks, ha]
    rw [key]
    exact hfail aid
  · intro aid chunk chunks a as hid hchunks harts hurl1 hurl2
    have key : process_deployment cfg env st root =
        deploy_parse_fail cfg env.unlinkOk
          [Effect.restReq "GET" dep none]
          { st with action_id := some aid }
          (build_api_url cfg (some ("deploymentBase/" ++ aid ++ "/feedback"))) aid := by
      unfold process_deployment
      simp only [hact, hhref, hresp, hid, hchunks, harts, hurl1, hurl2,
        Option.none_orElse]
    rw [key]
    exact hfail aid
  · intro aid chunk chunks a as u f hid hchunks harts hurl hfs hspace
    unfold process_deployment
    simp only [hact, hhref, hresp, hid, hchunks, harts, hurl,
      Option.some_orElse, hfs, if_neg hspace]
    refine ⟨trivial, ?_, trivial⟩
    cases htd : st.thread_download <;>
      simp [htd, Effect.isFeedbackPost, List.filter]

/-- Witness for C4: the "unchecked sha1" conjunct applied at the
concrete no-sha1 deployment. -/
theorem C4_missing_field_checks_witness :
    (process_deployment sampleConfig envNoSha1 stIdle reqRootDeploy).result =
      Except.ok () ∧
    (process_deployment sampleConfig envNoSha1 stIdle
        reqRootDeploy).trace.filter Effect.isFeedbackPost = [] ∧
    (process_deployment sampleConfig envNoSha1 stIdle reqRootDeploy).st.thread_download =
      some
        { name := json_get_string chunkNoSha1 ["name"],
          version := json_get_string chunkNoSha1 ["version"],
          size := json_get_int artNoSha1 ["size"],
          sha1 := json_get_string artNoSha1 ["hashes", "sha1"],
          feedback_url :=
            build_api_url sampleConfig (some ("deploymentBase/" ++ "42" ++ "/feedback")),
          download_url := some "https://server.example/download/42" } :=
  (C4_missing_field_checks sampleConfig envNoSha1 stIdle reqRootDeploy respNoSha1
      "https://server.example/deploy/42" rfl rfl rfl).2.2.2.2
    "42" chunkNoSha1 [] artNoSha1 [] "https://server.example/download/42" 99999999
    rfl rfl rfl rfl rfl (by decide)

/-- The value of the local `res` at the `out:` label of
`hawkbit_pull_cb`: the base GET result, overwritten by identify's result
when `configData` is linked, overwritten again by `process_deployment`'s
result when `deploymentBase` is linked. -/
def tick_result (cfg : Config) (env : TickEnv) (st : ClientState) : Bool :=
  match env.baseResult with
  | Except.error _ => false
  | Except.ok root =>
      if json_contains root ["_links", "deploymentBase"] then
        match (process_deployment cfg env.deploy st root).result with
        | Except.ok _ => true
        | Except.error _ => false
      else if json_contains root ["_links", "configData"] then
        match env.identifyResult with
        | Except.ok _ => true
        | Except.error _ => false
      else true

/-- A tick environment whose base GET succeeds with a response linking a
deployment. -/
def envDeployTick : TickEnv :=
  { now := "20260101T000000",
    baseResult := Except.ok reqRootDeploy,
    identifyResult := Except.ok (),
    deploy := envSample,
    uninitSleep := 0 }

/-- Timer data one second away from the next poll. -/
def dataDue : ClientData :=
  { res := 0, hawkbit_interval_check_sec := 60, last_run_sec := 59 }

/-- C5 counterexample: a tick whose base GET succeeds but whose
deployment intake fails (already in progress) exits run_once mode with
code 1 — refuting "the tick result is success iff the base GET
succeeded". -/
theorem C5_counterexample :
    envDeployTick.baseResult = Except.ok reqRootDeploy ∧
    (hawkbit_pull_cb sampleConfig true envDeployTick dataDue stActive).data.res = 1 ∧
    (hawkbit_pull_cb sampleConfig true envDeployTick dataDue stActive).quit = true :=
  ⟨rfl, rfl, rfl⟩

/-- C5 (amended): the tick result is the result of the last
sub-operation performed — `process_deployment`'s result when a
`deploymentBase` link is present, else identify's result when a
`configData` link is present, else the base GET result — so failures of
identify or `process_deployment` do make the tick fail. In run_once
mode the loop quits at the first tick that actually polls (ticks before
the interval elapses neither quit nor poll) with exit code 0 on tick
success and 1 on tick failure; without run_once the callback always
continues. -/
theorem C5_tick_result (cfg : Config) (env : TickEnv) (data : ClientData)
    (st : ClientState) :
    (data.last_run_sec + 1 < data.hawkbit_interval_check_sec →
      ∀ ro, (hawkbit_pull_cb cfg ro env data st).quit = false ∧
        (hawkbit_pull_cb cfg ro env data st).keepSource = true ∧
        (hawkbit_pull_cb cfg ro env data st).trace = []) ∧
    (¬ data.last_run_sec + 1 < data.hawkbit_interval_check_sec →
      (hawkbit_pull_cb cfg true env data st).quit = true ∧
      (hawkbit_pull_cb cfg true env data st).keepSource = false ∧
      (hawkbit_pull_cb cfg false env data st).quit = false ∧
      (hawkbit_pull_cb cfg false env data st).keepSource = true ∧
      (hawkbit_pull_cb cfg true env data st).data.res =
        (if tick_result cfg env st then 0 else 1)) := by
  constructor
  · intro h ro
    unfold hawkbit_pull_cb
    simp only [if_pos h]
    exact ⟨trivial, trivial, trivial⟩
  · intro h
    unfold hawkbit_pull_cb tick_result
    simp only [if_neg h]
    cases hbase : env.baseResult with
    | error e => simp [finish_tick]
    | ok root =>
        by_cases hdep : json_contains root ["_links", "deploymentBase"]
        · cases hp : (process_deployment cfg env.deploy st root).result with
          | ok v => simp [hdep, hp, finish_tick]
          | error e => simp [hdep, hp, finish_tick]
        · by_cases hcfg : json_contains root ["_links", "configData"]
          · cases hi : env.identifyResult with
            | ok v => simp [hdep, hcfg, hi, finish_tick]
            | error e => simp [hdep, hcfg, hi, finish_tick]
          · simp [hdep, hcfg, finish_tick]

/-- Witness for C5 at a concrete due tick. -/
theorem C5_tick_result_witness :
    (¬ dataDue.last_run_sec + 1 < dataDue.hawkbit_interval_check_sec) ∧
    ((hawkbit_pull_cb sampleConfig true envDeployTick dataDue stActive).quit = true ∧
    (hawkbit_pull_cb sampleConfig true envDeployTick dataDue stActive).keepSource =
      false ∧
    (hawkbit_pull_cb sampleConfig false envDeployTick dataDue stActive).quit = false ∧
    (hawkbit_pull_cb sampleConfig false envDeployTick dataDue stActive).keepSource =
      true ∧
    (hawkbit_pull_cb sampleConfig true envDeployTick dataDue stActive).data.res =
      (if tick_result sampleConfig envDeployTick stActive then 0 else 1)) :=
  ⟨by decide,
   (C5_tick_result sampleConfig envDeployTick dataDue stActive).2 (by decide)⟩

end RaucHawkbit
